import Mathlib

/-!
Verification of the ExtDirect RPC dispatch layer
(`src/repoze/bfg/extdirect/__init__.py`).

The embedding models the module's registry, router, request parsers and
response encoder as executable Lean definitions.  Python runtime behaviour
is made explicit:

* raised exceptions are modelled by `Except PyExc`, where `PyExc` records
  the exception's class name and its `str()` message;
* JSON values are the inductive `Json`; `json.loads` is abstracted by the
  request carrying `bodyJson : Option Json` (`none` = the body is not
  valid JSON, in which case `json.loads` raises `ValueError`);
* the external collaborators (`has_permission`, `render_view_to_response`)
  are function-valued fields of the request;
* a callable is modelled by `Callback`: whether it carries `im_class`
  (a method retrieved from a class), the number of positional parameters
  it accepts, and its body.  Calling it with the wrong number of
  positional arguments raises `TypeError` before the body runs, as in
  CPython.
-/

/-- JSON values (the decoded form handled by `json.loads`/`json.dumps`). -/
inductive Json : Type where
  | null : Json
  | bool (b : Bool) : Json
  | num (n : Int) : Json
  | str (s : String) : Json
  | arr (xs : List Json) : Json
  | obj (kvs : List (String × Json)) : Json

/-- A raised Python exception: its class name and its `str()` message. -/
structure PyExc : Type where
  cls : String
  msg : String
deriving DecidableEq

/-- Association-list lookup, modelling Python `dict` access by key. -/
def dictGet {α : Type} : List (String × α) → String → Option α
  | [], _ => none
  | (k, v) :: rest, key => if k = key then some v else dictGet rest key

/-- Association-list update, modelling Python `dict` item assignment
(last assignment wins). -/
def dictSet {α : Type} : List (String × α) → String → α → List (String × α)
  | [], key, val => [(key, val)]
  | (k, v) :: rest, key, val =>
    if k = key then (key, val) :: rest else (k, v) :: dictSet rest key val

/-- An argument passed positionally to a handler: a JSON value, the
request object (appended when `request_as_last_param` is set), or a
freshly constructed instance of the handler's class (inserted first for
`im_class` callbacks); the instance is identified by its class name. -/
inductive Arg : Type where
  | val (v : Json) : Arg
  | request : Arg
  | inst (cls : String) : Arg

/-- Outcome of executing a handler body: a returned JSON value or a
raised exception. -/
inductive CallResult : Type where
  | ok (v : Json) : CallResult
  | exc (e : PyExc) : CallResult

/-- A registered callable.  `imCls` is `some c` when the callable has an
`im_class` attribute (a method of class `c`); `argc` is the number of
positional parameters the callable accepts at call time; `body` is its
behaviour when invoked with a well-formed argument list. -/
structure Callback : Type where
  imCls : Option String
  argc : Nat
  body : List Arg → CallResult

/-- Calling a callable with a list of positional arguments: CPython
raises `TypeError` when the argument count does not match the callable's
parameter count, otherwise the body runs. -/
def callCallback (cb : Callback) (args : List Arg) : CallResult :=
  if args.length = cb.argc then cb.body args
  else CallResult.exc ⟨"TypeError", "wrong number of arguments"⟩

/-- The settings dict stored by `Extdirect.add_action` (source lines
91-109): method name, callback, declared argument count, form-handler
flag, optional permission, and the request-as-last-parameter flag. -/
structure Settings : Type where
  method_name : String
  callback : Callback
  numargs : Nat
  accepts_files : Bool
  permission : Option String
  request_as_last_param : Bool

/-- The HTTP request as the router sees it: the request parameters
(`request.params`, key-value pairs), the JSON-decoded body (`none` when
the body is not valid JSON), the external authorization capability
`has_permission(permission, context_class, request)`, and the external
exception-view collaborator `render_view_to_response(e, request)`. -/
structure Request : Type where
  params : List (String × String)
  bodyJson : Option Json
  hasPermission : String → String → Bool
  excView : PyExc → Option Json

/-- The keys of `request.params`. -/
def Request.paramKeys (r : Request) : List String := r.params.map Prod.fst

/-- One parsed incoming call: the tuple `(action, method, data, tid)`
extracted by the request parsers.  All four components are JSON values
exactly as decoded from the wire. -/
structure IncomingCall : Type where
  action : Json
  method : Json
  data : Json
  tid : Json

/-- The per-call result envelope `ret` built by `_do_route` (source
lines 153-159): type ("rpc" or "exception"), transaction id, action,
method, and the result payload. -/
structure Envelope : Type where
  type : String
  tid : Json
  action : Json
  method : Json
  result : Json

/-- Source line 30-31: `_mk_cb_key(action_name, method_name)`. -/
def _mk_cb_key (action_name method_name : String) : String :=
  action_name ++ "#" ++ method_name

/-- Source lines 15-21: the form parameter keys sent by ExtDirect for a
form submit. -/
def FORM_DATA_KEYS : List String :=
  ["extAction", "extMethod", "extTID", "extUpload", "extType"]

/-- The Extdirect utility.  Only the fields that affect routing and the
API descriptor are modelled (`app` and the path/namespace strings are
configuration consumed elsewhere).  `actions` is the
`defaultdict(dict)` mapping action name to a dict from callback key to
settings. -/
structure Extdirect : Type where
  expose_exceptions : Bool
  actions : List (String × List (String × Settings))

/-- Source lines 91-109: `add_action` stores the settings under
`actions[action_name][_mk_cb_key(action_name, method_name)]`. -/
def Extdirect.add_action (self : Extdirect) (action_name : String)
    (settings : Settings) : Extdirect :=
  let methods := (dictGet self.actions action_name).getD []
  { self with
    actions := dictSet self.actions action_name
      (dictSet methods (_mk_cb_key action_name settings.method_name) settings) }

/-- One method entry of the API descriptor (source lines 117-123):
`{len, name}` plus a `formHandler: true` key exactly when
`accepts_files` is set. -/
def method_entry (s : Settings) : Json :=
  Json.obj ([("len", Json.num (Int.ofNat s.numargs)),
             ("name", Json.str s.method_name)]
    ++ (if s.accepts_files then [("formHandler", Json.bool true)] else []))

/-- Source lines 111-125: `get_actions` builds the API descriptor dict
mapping each action name to the list of its method entries. -/
def Extdirect.get_actions (self : Extdirect) : List (String × List Json) :=
  self.actions.map (fun kv => (kv.1, kv.2.map (fun ms => method_entry ms.2)))

/-- Source lines 127-134: `get_method` raises
`KeyError("Invalid action: " + action)` for an unknown action and
`KeyError("No such method in '%s': '%s':" % (action, method))` for an
unknown method; otherwise it returns the stored settings.  A non-string
action or method would make the string concatenation raise `TypeError`. -/
def Extdirect.get_method (self : Extdirect) (action method : Json) :
    Except PyExc Settings :=
  match action with
  | Json.str a =>
    match dictGet self.actions a with
    | none => Except.error ⟨"KeyError", "Invalid action: " ++ a⟩
    | some methods =>
      match method with
      | Json.str m =>
        match dictGet methods (_mk_cb_key a m) with
        | none =>
          Except.error
            ⟨"KeyError", "No such method in '" ++ a ++ "': '" ++ m ++ "':"⟩
        | some s => Except.ok s
      | _ => Except.error ⟨"TypeError", "cannot concatenate str and non-str"⟩
  | _ => Except.error ⟨"TypeError", "cannot concatenate str and non-str"⟩

/-- The `params` local of `_do_route`: normally a Python list, but when
the wire `data` field is a non-null scalar the variable holds that
non-sequence value (the source passes it through unchecked and the
failure only surfaces at `append`/`insert`/argument unpacking). -/
inductive Params : Type where
  | list (xs : List Arg) : Params
  | scalar (j : Json) : Params

/-- Source lines 162-163: `if params is None: params = list()`.  A JSON
array arrives as a Python list of values; any other value is carried
through as a non-sequence. -/
def build_params : Json → Params
  | Json.null => Params.list []
  | Json.arr xs => Params.list (xs.map Arg.val)
  | j => Params.scalar j

/-- Source lines 164-165: `if req_as_last: params.append(request)`.
This runs before the try block, so an `AttributeError` on a
non-sequence propagates out of `_do_route`. -/
def append_request (req_as_last : Bool) (p : Params) : Except PyExc Params :=
  if req_as_last then
    match p with
    | Params.list xs => Except.ok (Params.list (xs ++ [Arg.request]))
    | Params.scalar _ =>
      Except.error ⟨"AttributeError", "object has no attribute append"⟩
  else Except.ok p

/-- Source lines 178-179: the message of the exception raised when the
call raises `TypeError` (note the order: method first, then action). -/
def invalid_method_msg (method_name action_name : Json) : String :=
  match method_name, action_name with
  | Json.str m, Json.str a => "Invalid method '" ++ m ++ "' for action '" ++ a ++ "'"
  | _, _ => ""

/-- Source lines 175-179: the inner try block.
`ret["result"] = callback(*params)`; a `TypeError` raised there (wrong
arity or raised by the body itself) is replaced by
`Exception("Invalid method '%s' for action '%s'")`; any other exception
propagates to the outer handler. -/
def call_step (cb : Callback) (args : List Arg)
    (method_name action_name : Json) : Except PyExc Json :=
  match callCallback cb args with
  | CallResult.ok v => Except.ok v
  | CallResult.exc e =>
    if e.cls = "TypeError" then
      Except.error ⟨"Exception", invalid_method_msg method_name action_name⟩
    else Except.error e

/-- Source lines 167-179: the body of the outer try block.  For a
callback with `im_class` an instance is constructed, the permission (if
any) is checked against it — `Exception("Access denied")` on denial —
and the instance is inserted as first argument.  Plain callables skip
the permission check entirely.  Unpacking a non-sequence `params`
raises `TypeError` at the call. -/
def try_block (settings : Settings) (request : Request) (params : Params)
    (method_name action_name : Json) : Except PyExc Json :=
  match settings.callback.imCls with
  | some cls =>
    if settings.permission.isSome
        && !(request.hasPermission (settings.permission.getD "") cls) then
      Except.error ⟨"Exception", "Access denied"⟩
    else
      match params with
      | Params.list xs =>
        call_step settings.callback (Arg.inst cls :: xs) method_name action_name
      | Params.scalar _ =>
        Except.error ⟨"AttributeError", "object has no attribute insert"⟩
  | none =>
    match params with
    | Params.list xs => call_step settings.callback xs method_name action_name
    | Params.scalar _ =>
      Except.error ⟨"TypeError", "argument after * must be a sequence"⟩

/-- Model of `traceback.format_exc()` for the exception being handled. -/
def format_exc (e : PyExc) : String :=
  "Traceback (most recent call last):\n" ++ e.cls ++ ": " ++ e.msg

/-- The `%s` formatting of an action/method value in an error message
(only string values reach these messages in practice). -/
def jstr : Json → String
  | Json.str s => s
  | _ => ""

/-- Source lines 188-201: the envelope built by the outer exception
handler once the exception view declined.  With `expose_exceptions` the
result carries the exception's message, class and traceback; otherwise
only the generic `Error executing <action>.<method>` message. -/
def Extdirect.error_envelope (self : Extdirect) (action_name method_name trans_id : Json)
    (e : PyExc) : Envelope :=
  if self.expose_exceptions then
    ⟨"exception", trans_id, action_name, method_name,
      Json.obj [("error", Json.bool true), ("message", Json.str e.msg),
                ("exception_class", Json.str e.cls),
                ("stacktrace", Json.str (format_exc e))]⟩
  else
    ⟨"exception", trans_id, action_name, method_name,
      Json.obj [("error", Json.bool true),
                ("message", Json.str ("Error executing " ++ jstr action_name
                  ++ "." ++ jstr method_name))]⟩

/-- Source lines 149-202: `_do_route`.  `get_method` runs before the
try block, so its `KeyError` propagates out.  On success the envelope
has type "rpc"; a caught exception is first offered to the
exception-view collaborator (its response, when any, becomes the result
with type still "rpc"), and otherwise becomes an exception envelope. -/
def Extdirect.do_route (self : Extdirect)
    (action_name method_name params0 trans_id : Json) (request : Request) :
    Except PyExc Envelope :=
  match self.get_method action_name method_name with
  | Except.error e => Except.error e
  | Except.ok settings =>
    match append_request settings.request_as_last_param (build_params params0) with
    | Except.error e => Except.error e
    | Except.ok params =>
      match try_block settings request params method_name action_name with
      | Except.ok v => Except.ok ⟨"rpc", trans_id, action_name, method_name, v⟩
      | Except.error e =>
        match request.excView e with
        | some view =>
          Except.ok ⟨"rpc", trans_id, action_name, method_name, view⟩
        | none =>
          Except.ok (self.error_envelope action_name method_name trans_id e)

/-- Source lines 285-288: `is_form_submit` returns whether
`FORM_DATA_KEYS - set(request.params)` is empty. -/
def is_form_submit (request : Request) : Bool :=
  (FORM_DATA_KEYS.filter (fun k => !(request.paramKeys.contains k))).isEmpty

/-- `request.params.pop(key)`: the value when present, `KeyError`
otherwise. -/
def Request.paramPop (r : Request) (k : String) : Except PyExc String :=
  match dictGet r.params k with
  | some v => Except.ok v
  | none => Except.error ⟨"KeyError", k⟩

/-- Source lines 291-303: `parse_extdirect_form_submit` pops the five
form keys in order and then evaluates `[(action, method, [data], tid)]`.
No name `data` is bound anywhere in the module, so evaluating the
return expression raises `NameError`. -/
def parse_extdirect_form_submit (request : Request) :
    Except PyExc (List IncomingCall) :=
  match request.paramPop "extAction" with
  | Except.error e => Except.error e
  | Except.ok _action =>
    match request.paramPop "extMethod" with
    | Except.error e => Except.error e
    | Except.ok _method =>
      match request.paramPop "extTID" with
      | Except.error e => Except.error e
      | Except.ok _tid =>
        match request.paramPop "extUpload" with
        | Except.error e => Except.error e
        | Except.ok _upload =>
          match request.paramPop "extType" with
          | Except.error e => Except.error e
          | Except.ok _type =>
            Except.error ⟨"NameError", "global name 'data' is not defined"⟩

/-- Python subscription `p[k]`: `KeyError` when the key is missing,
`TypeError` when `p` is not a mapping. -/
def getKey (p : Json) (k : String) : Except PyExc Json :=
  match p with
  | Json.obj kvs =>
    match dictGet kvs k with
    | some v => Except.ok v
    | none => Except.error ⟨"KeyError", k⟩
  | _ => Except.error ⟨"TypeError", "object is unsubscriptable"⟩

/-- Source lines 316-321: extraction of one batch element's
`action`, `method`, `data` and `tid` fields, in that order. -/
def parseCall (p : Json) : Except PyExc IncomingCall :=
  match getKey p "action" with
  | Except.error e => Except.error e
  | Except.ok action =>
    match getKey p "method" with
    | Except.error e => Except.error e
    | Except.ok method =>
      match getKey p "data" with
      | Except.error e => Except.error e
      | Except.ok data =>
        match getKey p "tid" with
        | Except.error e => Except.error e
        | Except.ok tid => Except.ok ⟨action, method, data, tid⟩

/-- Effectful map over a list, stopping at the first raised exception —
the behaviour of the source's accumulation loops. -/
def mapE {α β : Type} (f : α → Except PyExc β) : List α → Except PyExc (List β)
  | [] => Except.ok []
  | x :: xs =>
    match f x with
    | Except.error e => Except.error e
    | Except.ok y =>
      match mapE f xs with
      | Except.error e => Except.error e
      | Except.ok ys => Except.ok (y :: ys)

/-- Source lines 306-322: `parse_extdirect_request` decodes the body as
JSON (`ValueError` when it is not valid JSON), wraps a non-list
top-level value into a one-element list, and extracts the four fields
of every element. -/
def parse_extdirect_request (request : Request) :
    Except PyExc (List IncomingCall) :=
  match request.bodyJson with
  | none => Except.error ⟨"ValueError", "No JSON object could be decoded"⟩
  | some decoded =>
    let elems := match decoded with
      | Json.arr xs => xs
      | j => [j]
    mapE parseCall elems

mutual

/-- `json.dumps` with the default separators. -/
def dumps : Json → String
  | Json.null => "null"
  | Json.bool b => cond b "true" "false"
  | Json.num n => toString n
  | Json.str s => "\"" ++ s ++ "\""
  | Json.arr xs => "[" ++ dumpsElems xs ++ "]"
  | Json.obj kvs => "\x7b" ++ dumpsMembers kvs ++ "\x7d"

def dumpsElems : List Json → String
  | [] => ""
  | [x] => dumps x
  | x :: xs => dumps x ++ ", " ++ dumpsElems xs

def dumpsMembers : List (String × Json) → String
  | [] => ""
  | [kv] => "\"" ++ kv.1 ++ "\": " ++ dumps kv.2
  | kv :: kvs => "\"" ++ kv.1 ++ "\": " ++ dumps kv.2 ++ ", " ++ dumpsMembers kvs

end

/-- The JSON object serialized for one result envelope. -/
def envJson (e : Envelope) : Json :=
  Json.obj [("type", Json.str e.type), ("tid", e.tid), ("action", e.action),
            ("method", e.method), ("result", e.result)]

/-- Source lines 204-219: `route`.  The request is classified by
`is_form_submit`; parsed calls are routed in order (a raised exception
aborts the whole request); a JSON response unwraps a single envelope
from its array; a form-submit response wraps the first envelope's JSON
in the textarea template after escaping quoted quotes. -/
def Extdirect.route (self : Extdirect) (request : Request) :
    Except PyExc (String × Bool) :=
  let is_form_data := is_form_submit request
  let parsed :=
    if is_form_data then parse_extdirect_form_submit request
    else parse_extdirect_request request
  match parsed with
  | Except.error e => Except.error e
  | Except.ok calls =>
    match mapE (fun c => self.do_route c.action c.method c.data c.tid request) calls with
    | Except.error e => Except.error e
    | Except.ok ret =>
      if !is_form_data then
        let out := match ret with
          | [e] => envJson e
          | _ => Json.arr (ret.map envJson)
        Except.ok (dumps out, false)
      else
        match ret with
        | e :: _ =>
          Except.ok ("<html><body><textarea>"
            ++ ((dumps (envJson e)).replace "&quot;" "\\&quot;")
            ++ "</textarea></body></html>", true)
        | [] => Except.error ⟨"IndexError", "list index out of range"⟩

/-- The batch-JSON branch of `route` (everything after classification
when the request is not a form submission). -/
def Extdirect.route_json (self : Extdirect) (request : Request) :
    Except PyExc (String × Bool) :=
  match parse_extdirect_request request with
  | Except.error e => Except.error e
  | Except.ok calls =>
    match mapE (fun c => self.do_route c.action c.method c.data c.tid request) calls with
    | Except.error e => Except.error e
    | Except.ok ret =>
      Except.ok (dumps (match ret with
        | [e] => envJson e
        | _ => Json.arr (ret.map envJson)), false)

/-- Lookup of a key in a JSON object (`none` for absent keys and for
non-objects). -/
def objGet : Json → String → Option Json
  | Json.obj kvs, k => dictGet kvs k
  | _, _ => none

/-- The full positional argument list a handler is invoked with, given
its settings and the JSON parameters of the call: the fresh instance
first for an `im_class` callback, then the call's parameters, then the
request when `request_as_last_param` is set. -/
def built_args (s : Settings) (xs : List Json) : List Arg :=
  (match s.callback.imCls with
   | some cls => [Arg.inst cls]
   | none => [])
  ++ xs.map Arg.val
  ++ (if s.request_as_last_param then [Arg.request] else [])


/-! ## Helper lemmas -/

lemma dictGet_map {α β : Type} (f : α → β) (l : List (String × α)) (k : String) :
    dictGet (l.map (fun kv => (kv.1, f kv.2))) k = (dictGet l k).map f := by
  induction l with
  | nil => rfl
  | cons kv rest ih =>
    simp only [List.map_cons, dictGet]
    by_cases h : kv.1 = k
    · simp [h]
    · simp [h, ih]

/-- When the permission check cannot deny (no `im_class`, no permission,
or the capability grants), the try block amounts to calling the callback
on the instance-extended argument list. -/
lemma try_block_perm_ok (s : Settings) (req : Request) (xs : List Arg)
    (m a : Json)
    (hperm : ∀ cls p, s.callback.imCls = some cls → s.permission = some p →
      req.hasPermission p cls = true) :
    try_block s req (Params.list xs) m a =
      call_step s.callback
        ((match s.callback.imCls with
          | some cls => [Arg.inst cls]
          | none => []) ++ xs) m a := by
  unfold try_block
  cases hcls : s.callback.imCls with
  | none => simp
  | some cls =>
    cases hp : s.permission with
    | none => simp [hp]
    | some p =>
      have := hperm cls p hcls hp
      simp [hp, this]

/-- Evaluation of `_do_route` once the method is found and the
permission check cannot deny: the result is the outer exception
handling applied to the guarded call of the callback on the built
argument list. -/
lemma do_route_invoke (ext : Extdirect) (a m : String) (s : Settings)
    (xs : List Json) (tid : Json) (req : Request)
    (hfound : ext.get_method (Json.str a) (Json.str m) = Except.ok s)
    (hperm : ∀ cls p, s.callback.imCls = some cls → s.permission = some p →
      req.hasPermission p cls = true) :
    ext.do_route (Json.str a) (Json.str m) (Json.arr xs) tid req =
      match call_step s.callback (built_args s xs) (Json.str m) (Json.str a) with
      | Except.ok v => Except.ok ⟨"rpc", tid, Json.str a, Json.str m, v⟩
      | Except.error e =>
        match req.excView e with
        | some view => Except.ok ⟨"rpc", tid, Json.str a, Json.str m, view⟩
        | none => Except.ok (ext.error_envelope (Json.str a) (Json.str m) tid e) := by
  unfold Extdirect.do_route
  rw [hfound]
  simp only [build_params]
  cases hreq : s.request_as_last_param with
  | false =>
    simp only [append_request, hreq, Bool.false_eq_true, if_false]
    rw [try_block_perm_ok s req _ _ _ hperm]
    simp [built_args, hreq]
  | true =>
    simp only [append_request, hreq, if_true]
    rw [try_block_perm_ok s req _ _ _ hperm]
    simp [built_args, hreq]

/-! ## C1: resolution failure -/

def extC1 : Extdirect := ⟨true, []⟩

def reqC1 : Request :=
  ⟨[], some (Json.obj [("action", Json.str "Foo"), ("method", Json.str "bar"),
      ("data", Json.arr []), ("tid", Json.num 1)]),
   fun _ _ => true, fun _ => none⟩

/-- Claim C1 counterexample: routing a batch call whose action `"Foo"`
is not registered does NOT produce an exception `ResultEnvelope`; the
`KeyError` raised by `get_method` (which runs before the try block of
`_do_route`) propagates out of `route` as an unhandled error.  This
refutes the claim that resolution failure is a normal, non-fatal
outcome that never propagates out of routing. -/
theorem C1_counterexample :
    extC1.route reqC1 = Except.error ⟨"KeyError", "Invalid action: Foo"⟩ := rfl

/-- Claim C1 (amended): for every routed call naming an unknown action,
or an unknown method within a known action, `get_method` raises a
`KeyError` whose message names the invalid action/method, and this
error propagates out of `_do_route` (and hence out of `route`) instead
of being converted into an exception envelope. -/
theorem C1_theorem (ext : Extdirect) (a m : String) (d t : Json)
    (req : Request) :
    (dictGet ext.actions a = none →
      ext.do_route (Json.str a) (Json.str m) d t req
        = Except.error ⟨"KeyError", "Invalid action: " ++ a⟩) ∧
    (∀ ms, dictGet ext.actions a = some ms →
      dictGet ms (_mk_cb_key a m) = none →
      ext.do_route (Json.str a) (Json.str m) d t req
        = Except.error
            ⟨"KeyError", "No such method in '" ++ a ++ "': '" ++ m ++ "':"⟩) ∧
    (∀ kvs, is_form_submit req = false →
      req.bodyJson = some (Json.obj kvs) →
      parseCall (Json.obj kvs) = Except.ok ⟨Json.str a, Json.str m, d, t⟩ →
      dictGet ext.actions a = none →
      ext.route req = Except.error ⟨"KeyError", "Invalid action: " ++ a⟩) := by
  refine ⟨?_, ?_, ?_⟩
  · intro h
    simp [Extdirect.do_route, Extdirect.get_method, h]
  · intro ms hms h
    simp [Extdirect.do_route, Extdirect.get_method, hms, h]
  · intro kvs hform hbody hparse hact
    have hdo : ext.do_route (Json.str a) (Json.str m) d t req
        = Except.error ⟨"KeyError", "Invalid action: " ++ a⟩ := by
      simp [Extdirect.do_route, Extdirect.get_method, hact]
    simp only [Extdirect.route, hform, Bool.false_eq_true, if_false,
      parse_extdirect_request, hbody]
    simp only [mapE, hparse, hdo]

/-- Witness for `C1_theorem` at a concrete registry and call. -/
theorem C1_witness :
    extC1.do_route (Json.str "Quux") (Json.str "m") Json.null (Json.num 2) reqC1
      = Except.error ⟨"KeyError", "Invalid action: Quux"⟩ :=
  (C1_theorem extC1 "Quux" "m" Json.null (Json.num 2) reqC1).1 rfl

/-! ## C2: permission enforcement -/

lemma append_request_list (b : Bool) (xs : List Arg) :
    append_request b (Params.list xs)
      = Except.ok (Params.list (xs ++ if b then [Arg.request] else [])) := by
  cases b <;> simp [append_request]

/-- When the callback has `im_class`, a configured permission and a
denying capability, the try block raises `Exception("Access denied")`
whatever the parameters are. -/
lemma try_block_denied (s : Settings) (req : Request) (ps : Params)
    (m a : Json) (cls p : String)
    (hcls : s.callback.imCls = some cls) (hp : s.permission = some p)
    (hdeny : req.hasPermission p cls = false) :
    try_block s req ps m a = Except.error ⟨"Exception", "Access denied"⟩ := by
  unfold try_block
  rw [hcls]
  simp [hp, hdeny]

def cbC2plain : Callback := ⟨none, 0, fun _ => CallResult.ok (Json.num 42)⟩

def sC2plain : Settings := ⟨"m", cbC2plain, 0, false, some "view", false⟩

def extC2 : Extdirect := ⟨true, [("A", [("A#m", sC2plain)])]⟩

def reqC2 : Request := ⟨[], none, fun _ _ => false, fun _ => none⟩

def cbC2bound : Callback := ⟨some "C", 1, fun _ => CallResult.ok Json.null⟩

def sC2bound : Settings := ⟨"mb", cbC2bound, 0, false, some "secret", false⟩

def extC2b : Extdirect := ⟨true, [("B", [("B#mb", sC2bound)])]⟩

/-- Claim C2 counterexample: the registration `("A", "m")` is a plain
function with permission `"view"` configured, and the request's
authorization capability denies everything; yet routing the call never
consults the capability, invokes the handler anyway and returns a
normal "rpc" envelope.  This refutes the claim that every registration
with a permission has the authorization capability invoked (and denial
turned into an "Access denied" exception envelope) regardless of the
kind of callable registered. -/
theorem C2_counterexample :
    extC2.do_route (Json.str "A") (Json.str "m") (Json.arr []) (Json.num 1) reqC2
      = Except.ok ⟨"rpc", Json.num 1, Json.str "A", Json.str "m", Json.num 42⟩ := rfl

/-- Claim C2 (amended): the authorization capability is consulted only
for callbacks that carry `im_class`.  For such a callback with a
configured permission, denial raises `Exception("Access denied")`,
which (when no custom exception view intercepts it and
`expose_exceptions` is enabled) becomes an exception envelope whose
message is "Access denied".  For a plain-function callback the
permission setting is ignored: the routing result does not depend on
the authorization capability at all. -/
theorem C2_theorem (ext : Extdirect) (a m : String) (s : Settings)
    (tid : Json) (req : Request) (cls p : String)
    (hfound : ext.get_method (Json.str a) (Json.str m) = Except.ok s) :
    (s.callback.imCls = some cls → s.permission = some p →
      req.hasPermission p cls = false →
      req.excView ⟨"Exception", "Access denied"⟩ = none →
      ext.expose_exceptions = true →
      ∀ xs : List Json,
        ext.do_route (Json.str a) (Json.str m) (Json.arr xs) tid req
          = Except.ok ⟨"exception", tid, Json.str a, Json.str m,
              Json.obj [("error", Json.bool true),
                ("message", Json.str "Access denied"),
                ("exception_class", Json.str "Exception"),
                ("stacktrace",
                  Json.str (format_exc ⟨"Exception", "Access denied"⟩))]⟩) ∧
    (s.callback.imCls = none →
      ∀ (d tid2 : Json) (hp hp2 : String → String → Bool),
        ext.do_route (Json.str a) (Json.str m) d tid2
            { req with hasPermission := hp }
          = ext.do_route (Json.str a) (Json.str m) d tid2
              { req with hasPermission := hp2 }) := by
  constructor
  · intro hcls hp hdeny hview hexp xs
    unfold Extdirect.do_route
    rw [hfound]
    simp only [build_params, append_request_list]
    rw [try_block_denied s req _ (Json.str m) (Json.str a) cls p hcls hp hdeny]
    simp [hview, Extdirect.error_envelope, hexp]
  · intro hcls d tid2 hp hp2
    unfold Extdirect.do_route
    simp only [hfound]
    unfold try_block
    rw [hcls]

/-- Witness for `C2_theorem`: a concrete `im_class` registration with a
denied permission yields the "Access denied" exception envelope. -/
theorem C2_witness :
    extC2b.do_route (Json.str "B") (Json.str "mb") (Json.arr []) (Json.num 3) reqC2
      = Except.ok ⟨"exception", Json.num 3, Json.str "B", Json.str "mb",
          Json.obj [("error", Json.bool true),
            ("message", Json.str "Access denied"),
            ("exception_class", Json.str "Exception"),
            ("stacktrace",
              Json.str (format_exc ⟨"Exception", "Access denied"⟩))]⟩ :=
  (C2_theorem extC2b "B" "mb" sC2bound (Json.num 3) reqC2 "C" "secret" rfl).1
    rfl rfl rfl rfl rfl []

/-! ## C3: form-submission parsing -/

def reqC3 : Request :=
  ⟨[("extAction", "Files"), ("extMethod", "upload"), ("extTID", "5"),
    ("extUpload", "true"), ("extType", "rpc"), ("somefile", "payload")],
   none, fun _ _ => true, fun _ => none⟩

/-- Claim C3: the claim matches the evident intent, but the code is
broken.  `parse_extdirect_form_submit` returns
`[(action, method, [data], tid)]` while no name `data` is bound
anywhere in the module, so every form submission raises `NameError`
instead of producing the single `IncomingCall`; the error propagates
out of `route` for any registry. -/
theorem C3_theorem :
    is_form_submit reqC3 = true ∧
    parse_extdirect_form_submit reqC3
      = Except.error ⟨"NameError", "global name 'data' is not defined"⟩ ∧
    (∀ ext : Extdirect, ext.route reqC3
      = Except.error ⟨"NameError", "global name 'data' is not defined"⟩) :=
  ⟨rfl, rfl, fun _ => rfl⟩

/-! ## C4: the data field of a batch element -/

def reqC4 : Request :=
  ⟨[], some (Json.obj [("action", Json.str "A"), ("method", Json.str "m"),
      ("tid", Json.num 1)]),
   fun _ _ => true, fun _ => none⟩

/-- Claim C4 counterexample: a batch element carrying `action`,
`method` and `tid` but no `data` field is rejected (`KeyError: data`),
refuting the claim that absence of `data` alone does not make the
element malformed. -/
theorem C4_counterexample :
    parse_extdirect_request reqC4 = Except.error ⟨"KeyError", "data"⟩ := rfl

/-- Claim C4 (amended): an element is rejected when the body is not
valid JSON or the element lacks any one of the four fields `action`,
`method`, `data`, `tid` — `data` included.  The `data` field may be
JSON null (or an empty array), which means the call has no params: a
null `data` routes exactly like an empty parameter list. -/
theorem C4_theorem (req : Request) (kvs : List (String × Json)) :
    (req.bodyJson = none →
      parse_extdirect_request req
        = Except.error ⟨"ValueError", "No JSON object could be decoded"⟩) ∧
    (dictGet kvs "action" = none →
      req.bodyJson = some (Json.obj kvs) →
      parse_extdirect_request req = Except.error ⟨"KeyError", "action"⟩) ∧
    (∀ av, dictGet kvs "action" = some av →
      dictGet kvs "method" = none →
      req.bodyJson = some (Json.obj kvs) →
      parse_extdirect_request req = Except.error ⟨"KeyError", "method"⟩) ∧
    (∀ av mv, dictGet kvs "action" = some av →
      dictGet kvs "method" = some mv →
      dictGet kvs "data" = none →
      req.bodyJson = some (Json.obj kvs) →
      parse_extdirect_request req = Except.error ⟨"KeyError", "data"⟩) ∧
    (∀ av mv dv, dictGet kvs "action" = some av →
      dictGet kvs "method" = some mv →
      dictGet kvs "data" = some dv →
      dictGet kvs "tid" = none →
      req.bodyJson = some (Json.obj kvs) →
      parse_extdirect_request req = Except.error ⟨"KeyError", "tid"⟩) ∧
    (∀ (ext : Extdirect) (a m t : Json) (r2 : Request),
      ext.do_route a m Json.null t r2 = ext.do_route a m (Json.arr []) t r2) := by
  refine ⟨?_, ?_, ?_, ?_, ?_, ?_⟩
  · intro hbody
    simp [parse_extdirect_request, hbody]
  · intro ha hbody
    simp [parse_extdirect_request, hbody, mapE, parseCall, getKey, ha]
  · intro av ha hm hbody
    simp [parse_extdirect_request, hbody, mapE, parseCall, getKey, ha, hm]
  · intro av mv ha hm hd hbody
    simp [parse_extdirect_request, hbody, mapE, parseCall, getKey, ha, hm, hd]
  · intro av mv dv ha hm hd ht hbody
    simp [parse_extdirect_request, hbody, mapE, parseCall, getKey, ha, hm, hd, ht]
  · intro ext a m t r2
    rfl

/-- Witness for `C4_theorem`: a request whose body is not valid JSON
fails with `ValueError`. -/
theorem C4_witness :
    parse_extdirect_request reqC2
      = Except.error ⟨"ValueError", "No JSON object could be decoded"⟩ :=
  (C4_theorem reqC2 []).1 rfl

/-! ## C5: single call unwrapped, batch as array -/

/-- Claim C5: when a batch JSON request parses to calls that all route
to envelopes, a single envelope is serialized as a bare JSON object
(not a one-element array) and a batch of more than one is serialized as
the JSON array of the envelopes in input order. -/
theorem C5_theorem (ext : Extdirect) (req : Request)
    (calls : List IncomingCall) (envs : List Envelope)
    (hform : is_form_submit req = false)
    (hparse : parse_extdirect_request req = Except.ok calls)
    (hroute : mapE (fun c => ext.do_route c.action c.method c.data c.tid req) calls
      = Except.ok envs) :
    (∀ e, envs = [e] → ext.route req = Except.ok (dumps (envJson e), false)) ∧
    (1 < envs.length →
      ext.route req = Except.ok (dumps (Json.arr (envs.map envJson)), false)) := by
  constructor
  · intro e he
    subst he
    simp [Extdirect.route, hform, hparse, hroute]
  · intro hlen
    match envs, hroute, hlen with
    | e1 :: e2 :: rest, hroute, _ =>
      simp [Extdirect.route, hform, hparse, hroute]

def cbC5 : Callback :=
  ⟨none, 1, fun args =>
    match args with
    | [Arg.val (Json.num n)] => CallResult.ok (Json.num (n * 2))
    | _ => CallResult.ok Json.null⟩

def sC5 : Settings := ⟨"dbl", cbC5, 1, false, none, false⟩

def extC5 : Extdirect := ⟨true, [("Math", [("Math#dbl", sC5)])]⟩

def reqC5 : Request :=
  ⟨[], some (Json.arr [
      Json.obj [("action", Json.str "Math"), ("method", Json.str "dbl"),
                ("data", Json.arr [Json.num 3]), ("tid", Json.num 1)],
      Json.obj [("action", Json.str "Math"), ("method", Json.str "dbl"),
                ("data", Json.arr [Json.num 4]), ("tid", Json.num 2)]]),
   fun _ _ => true, fun _ => none⟩

def envC5a : Envelope :=
  ⟨"rpc", Json.num 1, Json.str "Math", Json.str "dbl", Json.num 6⟩

def envC5b : Envelope :=
  ⟨"rpc", Json.num 2, Json.str "Math", Json.str "dbl", Json.num 8⟩

/-- Witness for `C5_theorem`: a two-call batch is encoded as the JSON
array of its two envelopes in input order. -/
theorem C5_witness :
    extC5.route reqC5
      = Except.ok (dumps (Json.arr ([envC5a, envC5b].map envJson)), false) :=
  (C5_theorem extC5 reqC5
    [⟨Json.str "Math", Json.str "dbl", Json.arr [Json.num 3], Json.num 1⟩,
     ⟨Json.str "Math", Json.str "dbl", Json.arr [Json.num 4], Json.num 2⟩]
    [envC5a, envC5b] rfl rfl rfl).2 (by decide)

/-! ## C6: arity-mismatch message -/

def cbC6 : Callback := ⟨none, 1, fun _ => CallResult.ok Json.null⟩

def sC6 : Settings := ⟨"m", cbC6, 1, false, none, false⟩

def extC6 : Extdirect := ⟨false, [("A", [("A#m", sC6)])]⟩

def extC6w : Extdirect := ⟨true, [("A", [("A#m", sC6)])]⟩

/-- Claim C6 counterexample: with `expose_exceptions` disabled, calling
the one-parameter handler `("A", "m")` with zero parameters yields an
exception envelope whose message is the generic
`"Error executing A.m"`, not `"Invalid method 'm' for action 'A'"`;
the claim's exact-message property fails for this registered handler. -/
theorem C6_counterexample :
    extC6.do_route (Json.str "A") (Json.str "m") (Json.arr []) (Json.num 1) reqC2
      = Except.ok ⟨"exception", Json.num 1, Json.str "A", Json.str "m",
          Json.obj [("error", Json.bool true),
            ("message", Json.str "Error executing A.m")]⟩ := rfl

/-- Claim C6 (amended): when `expose_exceptions` is enabled and no
custom exception view intercepts, invoking a registered handler with
the wrong number of positional parameters produces an exception
envelope whose message is exactly
`"Invalid method '<method>' for action '<action>'"`. -/
theorem C6_theorem (ext : Extdirect) (a m : String) (s : Settings)
    (xs : List Json) (tid : Json) (req : Request)
    (hfound : ext.get_method (Json.str a) (Json.str m) = Except.ok s)
    (hperm : ∀ cls p, s.callback.imCls = some cls → s.permission = some p →
      req.hasPermission p cls = true)
    (harity : (built_args s xs).length ≠ s.callback.argc)
    (hview : req.excView ⟨"Exception",
      "Invalid method '" ++ m ++ "' for action '" ++ a ++ "'"⟩ = none)
    (hexp : ext.expose_exceptions = true) :
    ext.do_route (Json.str a) (Json.str m) (Json.arr xs) tid req
      = Except.ok ⟨"exception", tid, Json.str a, Json.str m,
          Json.obj [("error", Json.bool true),
            ("message",
              Json.str ("Invalid method '" ++ m ++ "' for action '" ++ a ++ "'")),
            ("exception_class", Json.str "Exception"),
            ("stacktrace", Json.str (format_exc ⟨"Exception",
              "Invalid method '" ++ m ++ "' for action '" ++ a ++ "'"⟩))]⟩ := by
  rw [do_route_invoke ext a m s xs tid req hfound hperm]
  simp [call_step, callCallback, harity, invalid_method_msg, hview,
    Extdirect.error_envelope, hexp]

/-- Witness for `C6_theorem` at the concrete one-parameter handler
called with no parameters. -/
theorem C6_witness :
    extC6w.do_route (Json.str "A") (Json.str "m") (Json.arr []) (Json.num 1) reqC2
      = Except.ok ⟨"exception", Json.num 1, Json.str "A", Json.str "m",
          Json.obj [("error", Json.bool true),
            ("message", Json.str "Invalid method 'm' for action 'A'"),
            ("exception_class", Json.str "Exception"),
            ("stacktrace", Json.str (format_exc ⟨"Exception",
              "Invalid method 'm' for action 'A'"⟩))]⟩ :=
  C6_theorem extC6w "A" "m" sC6 [] (Json.num 1) reqC2 rfl
    (fun cls p h => by simp [sC6, cbC6] at h)
    (by decide) rfl rfl

/-! ## C7: error payload shape under the exposure flag -/

def cbC7 : Callback := ⟨none, 0, fun _ => CallResult.exc ⟨"TypeError", "boom"⟩⟩

def sC7 : Settings := ⟨"m", cbC7, 0, false, none, false⟩

def extC7 : Extdirect := ⟨true, [("A", [("A#m", sC7)])]⟩

/-- The result payload produced for the handler of `extC7`. -/
def resC7 : Json :=
  Json.obj [("error", Json.bool true),
    ("message", Json.str "Invalid method 'm' for action 'A'"),
    ("exception_class", Json.str "Exception"),
    ("stacktrace", Json.str (format_exc
      ⟨"Exception", "Invalid method 'm' for action 'A'"⟩))]

/-- Claim C7 counterexample: with exception-detail exposure enabled,
the handler of `("A", "m")` raises `TypeError("boom")` from its own
body (it is invoked with the correct zero-argument arity), yet the
envelope's result records `exception_class` "Exception" — not the
raised error's class "TypeError" — and the message
"Invalid method 'm' for action 'A'" instead of "boom", because the
inner `except TypeError` handler replaces the error before the payload
is built.  This refutes the claim that, when enabled, the result
carries the (handler-raised) error's class name. -/
theorem C7_counterexample :
    extC7.do_route (Json.str "A") (Json.str "m") (Json.arr []) (Json.num 1) reqC2
      = Except.ok ⟨"exception", Json.num 1, Json.str "A", Json.str "m", resC7⟩
    ∧ objGet resC7 "exception_class" ≠ some (Json.str "TypeError")
    ∧ objGet resC7 "message" ≠ some (Json.str "boom") := by
  refine ⟨rfl, ?_, ?_⟩ <;> simp [resC7, objGet, dictGet]

/-- Claim C7 (amended): for a handler-raised error other than
`TypeError` (a raised `TypeError` is first replaced by
`Exception("Invalid method ...")`, whose class and trace are then
reported) that no custom view intercepts: with exposure disabled the
result is exactly `{"error": true, "message": "Error executing
<action>.<method>"}` with no `exception_class` or `stacktrace` keys;
with exposure enabled the result additionally carries the error's
class name and a formatted stack trace. -/
theorem C7_theorem (ext : Extdirect) (a m : String) (s : Settings)
    (xs : List Json) (tid : Json) (req : Request) (e : PyExc)
    (hfound : ext.get_method (Json.str a) (Json.str m) = Except.ok s)
    (hperm : ∀ cls p, s.callback.imCls = some cls → s.permission = some p →
      req.hasPermission p cls = true)
    (harity : (built_args s xs).length = s.callback.argc)
    (hbody : s.callback.body (built_args s xs) = CallResult.exc e)
    (hcls : e.cls ≠ "TypeError")
    (hview : req.excView e = none) :
    (ext.expose_exceptions = false →
      ext.do_route (Json.str a) (Json.str m) (Json.arr xs) tid req
        = Except.ok ⟨"exception", tid, Json.str a, Json.str m,
            Json.obj [("error", Json.bool true),
              ("message", Json.str ("Error executing " ++ a ++ "." ++ m))]⟩) ∧
    (ext.expose_exceptions = true →
      ext.do_route (Json.str a) (Json.str m) (Json.arr xs) tid req
        = Except.ok ⟨"exception", tid, Json.str a, Json.str m,
            Json.obj [("error", Json.bool true),
              ("message", Json.str e.msg),
              ("exception_class", Json.str e.cls),
              ("stacktrace", Json.str (format_exc e))]⟩) := by
  constructor
  · intro hexp
    rw [do_route_invoke ext a m s xs tid req hfound hperm]
    simp [call_step, callCallback, harity, hbody, hcls, hview,
      Extdirect.error_envelope, hexp, jstr]
  · intro hexp
    rw [do_route_invoke ext a m s xs tid req hfound hperm]
    simp [call_step, callCallback, harity, hbody, hcls, hview,
      Extdirect.error_envelope, hexp]

def cbC7w : Callback := ⟨none, 0, fun _ => CallResult.exc ⟨"ValueError", "bad input"⟩⟩

def sC7w : Settings := ⟨"m", cbC7w, 0, false, none, false⟩

def extC7w : Extdirect := ⟨false, [("A", [("A#m", sC7w)])]⟩

/-- Witness for `C7_theorem`: with exposure disabled, a handler raising
`ValueError("bad input")` yields exactly the generic payload. -/
theorem C7_witness :
    extC7w.do_route (Json.str "A") (Json.str "m") (Json.arr []) (Json.num 1) reqC2
      = Except.ok ⟨"exception", Json.num 1, Json.str "A", Json.str "m",
          Json.obj [("error", Json.bool true),
            ("message", Json.str "Error executing A.m")]⟩ :=
  (C7_theorem extC7w "A" "m" sC7w [] (Json.num 1) reqC2 ⟨"ValueError", "bad input"⟩
    rfl (fun cls p h => by simp [sC7w, cbC7w] at h) rfl rfl (by decide) rfl).1 rfl

/-! ## C8: form-submission classification -/

/-- Claim C8: `is_form_submit` is true exactly when every one of the
five form keys occurs among the request's parameter keys (extra keys
allowed), and a request classified as not a form submission is routed
through the batch-JSON parsing path. -/
theorem C8_theorem (req : Request) :
    (is_form_submit req = true ↔ ∀ k ∈ FORM_DATA_KEYS, k ∈ req.paramKeys) ∧
    (∀ ext : Extdirect, is_form_submit req = false →
      ext.route req = ext.route_json req) := by
  constructor
  · simp [is_form_submit, List.isEmpty_iff, List.filter_eq_nil_iff]
  · intro ext h
    simp only [Extdirect.route, Extdirect.route_json, h, Bool.not_false,
      Bool.false_eq_true, if_false, if_true]

def reqC8 : Request :=
  ⟨[("extAction", "A"), ("extMethod", "m"), ("extTID", "1"),
    ("extUpload", "true")], none, fun _ _ => true, fun _ => none⟩

/-- Witness for `C8_theorem`: a request carrying only four of the five
form keys is not a form submission and takes the batch-JSON path. -/
theorem C8_witness :
    is_form_submit reqC8 = false ∧ extC1.route reqC8 = extC1.route_json reqC8 :=
  ⟨rfl, (C8_theorem reqC8).2 extC1 rfl⟩

/-! ## C9: the API descriptor and the formHandler key -/

lemma dictGet_get_actions (ext : Extdirect) (a : String) :
    dictGet ext.get_actions a
      = (dictGet ext.actions a).map (fun v => v.map (fun kv => method_entry kv.2)) := by
  unfold Extdirect.get_actions
  exact dictGet_map _ ext.actions a

/-- Claim C9: for every action present in the registry, `get_actions`
maps it to its method entries; each entry carries the method's `name`
and `len`, and carries the key `formHandler` (with value `true`)
exactly when the registration's `accepts_files` flag is set — for all
other registrations the key is absent, not false. -/
theorem C9_theorem (ext : Extdirect) (a : String)
    (ms : List (String × Settings))
    (h : dictGet ext.actions a = some ms) :
    dictGet ext.get_actions a = some (ms.map (fun kv => method_entry kv.2)) ∧
    ∀ kv ∈ ms,
      objGet (method_entry kv.2) "name" = some (Json.str kv.2.method_name) ∧
      objGet (method_entry kv.2) "len" = some (Json.num (Int.ofNat kv.2.numargs)) ∧
      (kv.2.accepts_files = true ↔
        objGet (method_entry kv.2) "formHandler" = some (Json.bool true)) ∧
      (kv.2.accepts_files = false ↔
        objGet (method_entry kv.2) "formHandler" = none) := by
  constructor
  · rw [dictGet_get_actions, h]
    rfl
  · intro kv _
    cases haf : kv.2.accepts_files <;>
      simp [method_entry, objGet, dictGet, haf]

def sC9a : Settings :=
  ⟨"up", ⟨none, 1, fun _ => CallResult.ok Json.null⟩, 1, true, none, false⟩

def sC9b : Settings :=
  ⟨"info", ⟨none, 2, fun _ => CallResult.ok Json.null⟩, 2, false, none, false⟩

def extC9 : Extdirect :=
  ⟨true, [("Files", [("Files#up", sC9a), ("Files#info", sC9b)])]⟩

/-- Witness for `C9_theorem`: in a registry with one file-accepting and
one ordinary method, the descriptor lists both entries; the first
carries `formHandler: true` and the second has no `formHandler` key. -/
theorem C9_witness :
    dictGet extC9.get_actions "Files"
      = some [method_entry sC9a, method_entry sC9b]
    ∧ objGet (method_entry sC9a) "formHandler" = some (Json.bool true)
    ∧ objGet (method_entry sC9b) "formHandler" = none := by
  refine ⟨(C9_theorem extC9 "Files" [("Files#up", sC9a), ("Files#info", sC9b)] rfl).1,
    ((C9_theorem extC9 "Files" [("Files#up", sC9a), ("Files#info", sC9b)] rfl).2
      ("Files#up", sC9a) (by simp)).2.2.1.mp rfl,
    ((C9_theorem extC9 "Files" [("Files#up", sC9a), ("Files#info", sC9b)] rfl).2
      ("Files#info", sC9b) (by simp)).2.2.2.mp rfl⟩

/-! ## C10: body-raised TypeError is conflated with arity mismatch -/

def cbC10 : Callback :=
  ⟨none, 0, fun _ => CallResult.exc ⟨"TypeError", "bad type in body"⟩⟩

def sC10 : Settings := ⟨"n", cbC10, 0, false, none, false⟩

def extC10 : Extdirect := ⟨false, [("B", [("B#n", sC10)])]⟩

def extC10w : Extdirect := ⟨true, [("B", [("B#n", sC10)])]⟩

/-- Claim C10 counterexample: with `expose_exceptions` disabled, the
handler of `("B", "n")` — invoked with the correct arity — raises
`TypeError` from its body, and the envelope's message is the generic
`"Error executing B.n"`, not `"Invalid method 'n' for action 'B'"`;
the claim's universal exact-message property fails. -/
theorem C10_counterexample :
    extC10.do_route (Json.str "B") (Json.str "n") (Json.arr []) (Json.num 4) reqC2
      = Except.ok ⟨"exception", Json.num 4, Json.str "B", Json.str "n",
          Json.obj [("error", Json.bool true),
            ("message", Json.str "Error executing B.n")]⟩ := rfl

/-- Claim C10 (amended): any `TypeError` raised during the handler's
execution — including one raised by the handler's own body, not only a
wrong-arity invocation — is replaced by
`Exception("Invalid method '<method>' for action '<action>'")`; when
`expose_exceptions` is enabled and no custom view intercepts, the
resulting exception envelope carries exactly that arity-mismatch
message instead of the original error's payload. -/
theorem C10_theorem (ext : Extdirect) (a m : String) (s : Settings)
    (xs : List Json) (tid : Json) (req : Request) (msg0 : String)
    (hfound : ext.get_method (Json.str a) (Json.str m) = Except.ok s)
    (hperm : ∀ cls p, s.callback.imCls = some cls → s.permission = some p →
      req.hasPermission p cls = true)
    (harity : (built_args s xs).length = s.callback.argc)
    (hbody : s.callback.body (built_args s xs)
      = CallResult.exc ⟨"TypeError", msg0⟩)
    (hview : req.excView ⟨"Exception",
      "Invalid method '" ++ m ++ "' for action '" ++ a ++ "'"⟩ = none)
    (hexp : ext.expose_exceptions = true) :
    ext.do_route (Json.str a) (Json.str m) (Json.arr xs) tid req
      = Except.ok ⟨"exception", tid, Json.str a, Json.str m,
          Json.obj [("error", Json.bool true),
            ("message",
              Json.str ("Invalid method '" ++ m ++ "' for action '" ++ a ++ "'")),
            ("exception_class", Json.str "Exception"),
            ("stacktrace", Json.str (format_exc ⟨"Exception",
              "Invalid method '" ++ m ++ "' for action '" ++ a ++ "'"⟩))]⟩ := by
  rw [do_route_invoke ext a m s xs tid req hfound hperm]
  simp [call_step, callCallback, harity, hbody, invalid_method_msg, hview,
    Extdirect.error_envelope, hexp]

/-- Witness for `C10_theorem`: a body-raised `TypeError` with exposure
enabled is reported with the arity-mismatch message. -/
theorem C10_witness :
    extC10w.do_route (Json.str "B") (Json.str "n") (Json.arr []) (Json.num 5) reqC2
      = Except.ok ⟨"exception", Json.num 5, Json.str "B", Json.str "n",
          Json.obj [("error", Json.bool true),
            ("message", Json.str "Invalid method 'n' for action 'B'"),
            ("exception_class", Json.str "Exception"),
            ("stacktrace", Json.str (format_exc ⟨"Exception",
              "Invalid method 'n' for action 'B'"⟩))]⟩ :=
  C10_theorem extC10w "B" "n" sC10 [] (Json.num 5) reqC2 "bad type in body" rfl
    (fun cls p h => by simp [sC10, cbC10] at h) rfl rfl rfl rfl
